import Mathlib

/-!
Shallow embedding of the workerd repository's configuration-resolution and
service-lifecycle code (config.go, config_merger.go, server.go, workerd.go,
and the ServiceManager file), together with theorems settling the frozen
claims about it.

Conventions of the embedding:
* Go `string` becomes `String`; Go `int` and `time.Duration` become `Int`
  (durations are nanosecond counts in Go, an integer type).
* A Go pointer that may be nil becomes `Option _`.
* A Go function returning `(T, error)` becomes `Except Err T` with `Err`
  an inductive mirroring the distinct `fmt.Errorf` messages.
* `*slog.Logger` is an opaque handle: only identity matters to the code
  under study, so it is modelled as `Nat`.
-/

namespace Workerd

/-- Opaque stand-in for a `*slog.Logger` handle (only identity matters). -/
abbrev Logger := Nat

/-- Embedding of `RedisClient` from config.go: the connection descriptor
for the backing queue store. -/
structure RedisClient where
  Network : String
  Addr : String
  Username : String
  Password : String
  DB : Int
  DialTimeout : Int
  ReadTimeout : Int
  WriteTimeout : Int
  PoolSize : Int
deriving Repr, DecidableEq

/-- Embedding of `AsynqConfig` from config.go. -/
structure AsynqConfig where
  RedisClient : RedisClient
deriving Repr, DecidableEq

/-- The distinct failure conditions of `AsynqConfig.validate` in config.go,
one per `fmt.Errorf` site, each carrying the offending value where the Go
message interpolates it. -/
inductive ValidateErr where
  | emptyAddress
  | emptyNetwork
  | negativeDB (got : Int)
  | nonPositivePoolSize (got : Int)
  | nonPositiveDialTimeout (got : Int)
  | nonPositiveReadTimeout (got : Int)
  | nonPositiveWriteTimeout (got : Int)
deriving Repr, DecidableEq

/-- The configuration field each `ValidateErr` names in its Go error
message ("redis address cannot be empty" names the address, etc.). -/
def ValidateErr.field : ValidateErr → String
  | .emptyAddress => "address"
  | .emptyNetwork => "network"
  | .negativeDB _ => "db"
  | .nonPositivePoolSize _ => "poolSize"
  | .nonPositiveDialTimeout _ => "dialTimeout"
  | .nonPositiveReadTimeout _ => "readTimeout"
  | .nonPositiveWriteTimeout _ => "writeTimeout"

/-- Embedding of `(a *AsynqConfig) validate()` from config.go, checks in
source order; `Except.ok` is Go `nil` error. -/
def AsynqConfig.validate (a : AsynqConfig) : Except ValidateErr Unit :=
  if a.RedisClient.Addr = "" then .error .emptyAddress
  else if a.RedisClient.Network = "" then .error .emptyNetwork
  else if a.RedisClient.DB < 0 then .error (.negativeDB a.RedisClient.DB)
  else if a.RedisClient.PoolSize ≤ 0 then .error (.nonPositivePoolSize a.RedisClient.PoolSize)
  else if a.RedisClient.DialTimeout ≤ 0 then .error (.nonPositiveDialTimeout a.RedisClient.DialTimeout)
  else if a.RedisClient.ReadTimeout ≤ 0 then .error (.nonPositiveReadTimeout a.RedisClient.ReadTimeout)
  else if a.RedisClient.WriteTimeout ≤ 0 then .error (.nonPositiveWriteTimeout a.RedisClient.WriteTimeout)
  else .ok ()

/-- Embedding of `workerConfig` from config.go (`AsynqConfig` is a pointer
there, hence `Option`; `slog.Level` is an integer type). -/
structure workerConfig where
  AsynqConfig : Option AsynqConfig
  LogLevel : Int
  Name : String
  DisplayName : String
  Description : String
  Concurrency : Int
deriving Repr, DecidableEq

/-- Embedding of `WorkerdOptions` from config_merger.go. -/
structure WorkerdOptions where
  Name : String
  DisplayName : String
  Description : String
  Concurrency : Int
  Logger : Option Logger
  ConfigPath : String
  ServiceFlag : String
deriving Repr, DecidableEq

/-- Embedding of `ConfigMerger` from config_merger.go: the three sources,
each possibly absent (nil pointer in Go). -/
structure ConfigMerger where
  defaultConfig : Option workerConfig
  fileConfig : Option workerConfig
  optionsConfig : Option WorkerdOptions
deriving Repr, DecidableEq

/-- Embedding of `MergedConfig` from config_merger.go. -/
structure MergedConfig where
  Name : String
  DisplayName : String
  Description : String
  Concurrency : Int
  ConfigPath : String
  ServiceFlag : String
  Logger : Option Logger
  Config : Option workerConfig
deriving Repr, DecidableEq

/-- The options stage of `getStringValue` (config_merger.go): the body of
the `if cm.optionsConfig != nil` switch. `some v` models an early
`return v`, `none` models falling through to the next stage. -/
def optionsStringStage (o : WorkerdOptions) (field : String) : Option String :=
  if field = "name" then (if o.Name ≠ "" then some o.Name else none)
  else if field = "displayName" then (if o.DisplayName ≠ "" then some o.DisplayName else none)
  else if field = "description" then (if o.Description ≠ "" then some o.Description else none)
  else if field = "configPath" then (if o.ConfigPath ≠ "" then some o.ConfigPath else none)
  else if field = "serviceFlag" then (if o.ServiceFlag ≠ "" then some o.ServiceFlag else none)
  else none

/-- The file stage of `getStringValue` (config_merger.go): the body of the
`if cm.fileConfig != nil` switch; only name, displayName and description
exist in `workerConfig`. -/
def fileStringStage (f : workerConfig) (field : String) : Option String :=
  if field = "name" then (if f.Name ≠ "" then some f.Name else none)
  else if field = "displayName" then (if f.DisplayName ≠ "" then some f.DisplayName else none)
  else if field = "description" then (if f.Description ≠ "" then some f.Description else none)
  else none

/-- The defaults stage of `getStringValue` (config_merger.go): returns the
default unconditionally, even when it is empty. -/
def defaultStringStage (d : workerConfig) (field : String) : Option String :=
  if field = "name" then some d.Name
  else if field = "displayName" then some d.DisplayName
  else if field = "description" then some d.Description
  else none

/-- Embedding of `(cm *ConfigMerger) getStringValue(field)` from
config_merger.go: options, then file, then defaults, then `""`. -/
def ConfigMerger.getStringValue (cm : ConfigMerger) (field : String) : String :=
  match cm.optionsConfig.bind (optionsStringStage · field) with
  | some v => v
  | none =>
    match cm.fileConfig.bind (fileStringStage · field) with
    | some v => v
    | none =>
      match cm.defaultConfig.bind (defaultStringStage · field) with
      | some v => v
      | none => ""

/-- Embedding of `(cm *ConfigMerger) getIntValue(field)` from
config_merger.go (only field is "concurrency"): options if > 0, else file
if > 0, else defaults unconditionally, else 0. -/
def ConfigMerger.getIntValue (cm : ConfigMerger) (field : String) : Int :=
  match cm.optionsConfig.bind (fun o =>
      if field = "concurrency" then (if o.Concurrency > 0 then some o.Concurrency else none)
      else none) with
  | some v => v
  | none =>
    match cm.fileConfig.bind (fun f =>
        if field = "concurrency" then (if f.Concurrency > 0 then some f.Concurrency else none)
        else none) with
    | some v => v
    | none =>
      match cm.defaultConfig.bind (fun d =>
          if field = "concurrency" then some d.Concurrency else none) with
      | some v => v
      | none => 0

/-- Embedding of `(cm *ConfigMerger) getLoggerValue()` from
config_merger.go: only Options may supply the logger. -/
def ConfigMerger.getLoggerValue (cm : ConfigMerger) : Option Logger :=
  match cm.optionsConfig with
  | some o => o.Logger
  | none => none

/-- The single failure condition of `Merge` ("default configuration is
required"). -/
inductive MergeErr where
  | MissingDefaults
deriving Repr, DecidableEq

/-- Embedding of `(cm *ConfigMerger) Merge()` from config_merger.go:
fails only when the defaults source is nil; otherwise assembles the merged
record and substitutes the defaults object for a nil file config. -/
def ConfigMerger.Merge (cm : ConfigMerger) : Except MergeErr MergedConfig :=
  match cm.defaultConfig with
  | none => .error .MissingDefaults
  | some _ =>
    .ok
      { Name := cm.getStringValue "name"
        DisplayName := cm.getStringValue "displayName"
        Description := cm.getStringValue "description"
        Concurrency := cm.getIntValue "concurrency"
        ConfigPath := cm.getStringValue "configPath"
        ServiceFlag := cm.getStringValue "serviceFlag"
        Logger := cm.getLoggerValue
        Config :=
          match cm.fileConfig with
          | some fc => some fc
          | none => cm.defaultConfig }

/-- Embedding of `asynq.RedisClientOpt`, the connection descriptor handed
to the external task-queue runtime (config.go, `GetRedisClientOpt`). -/
structure RedisClientOpt where
  Network : String
  Addr : String
  Username : String
  Password : String
  DB : Int
  DialTimeout : Int
  ReadTimeout : Int
  WriteTimeout : Int
  PoolSize : Int
deriving Repr, DecidableEq

/-- Failure conditions of `GetRedisClientOpt` in config.go: nil receiver,
or a validation failure wrapped as "invalid asynq configuration". -/
inductive GetOptErr where
  | nilAsynqConfig
  | invalidAsynqConfiguration (e : ValidateErr)
deriving Repr, DecidableEq

/-- Embedding of `(a *AsynqConfig) GetRedisClientOpt()` from config.go:
nil check, validation, then a field-by-field copy into the runtime's
option record. -/
def GetRedisClientOpt : Option AsynqConfig → Except GetOptErr RedisClientOpt
  | none => .error .nilAsynqConfig
  | some a =>
    match a.validate with
    | .error e => .error (.invalidAsynqConfiguration e)
    | .ok _ =>
      .ok
        { Network := a.RedisClient.Network
          Addr := a.RedisClient.Addr
          Username := a.RedisClient.Username
          Password := a.RedisClient.Password
          DB := a.RedisClient.DB
          DialTimeout := a.RedisClient.DialTimeout
          ReadTimeout := a.RedisClient.ReadTimeout
          WriteTimeout := a.RedisClient.WriteTimeout
          PoolSize := a.RedisClient.PoolSize }

/-- Embedding of `ServerBuilder` from server.go. -/
structure ServerBuilder where
  config : workerConfig
deriving Repr, DecidableEq

/-- Failure conditions of `BuildServer` in server.go, one per
`fmt.Errorf` site. -/
inductive BuildErr where
  | InvalidConcurrency (got : Int)
  | RedisOptFailed (e : GetOptErr)
deriving Repr, DecidableEq

/-- The handle `asynq.NewServer` returns: it records exactly what the
external runtime was given. -/
structure ServerHandle where
  redisOpt : RedisClientOpt
  concurrency : Int
deriving Repr, DecidableEq

/-- One observable call into the external task-queue runtime; the trace of
these is the second component of `BuildServer`. -/
inductive RuntimeCall where
  | newServer (opt : RedisClientOpt) (concurrency : Int)
deriving Repr, DecidableEq

/-- Embedding of `(sb *ServerBuilder) BuildServer(concurrency)` from
server.go. The second component is the trace of calls made to the external
task-queue runtime (`asynq.NewServer`); Go's nil-server branch is dead
because the runtime constructor always yields a handle. -/
def ServerBuilder.BuildServer (sb : ServerBuilder) (concurrency : Int) :
    Except BuildErr ServerHandle × List RuntimeCall :=
  if concurrency ≤ 0 then (.error (.InvalidConcurrency concurrency), [])
  else
    match GetRedisClientOpt sb.config.AsynqConfig with
    | .error e => (.error (.RedisOptFailed e), [])
    | .ok redisOpt =>
      (.ok { redisOpt := redisOpt, concurrency := concurrency },
        [.newServer redisOpt concurrency])

/-- The concurrency value `BuildServerWithDefaults` (server.go) hands to
`BuildServer`: `defaultConcurrency := 10; if sb.config.Concurrency > 0
then sb.config.Concurrency`. -/
def ServerBuilder.defaultConcurrency (sb : ServerBuilder) : Int :=
  if sb.config.Concurrency > 0 then sb.config.Concurrency else 10

/-- Embedding of `(sb *ServerBuilder) BuildServerWithDefaults()` from
server.go. -/
def ServerBuilder.BuildServerWithDefaults (sb : ServerBuilder) :
    Except BuildErr ServerHandle × List RuntimeCall :=
  sb.BuildServer sb.defaultConcurrency

/-- The five action names of `service.ControlAction` in the kardianos
service package, in its order; `HandleControl`'s error messages quote this
list. -/
def serviceControlActions : List String :=
  ["start", "stop", "restart", "install", "uninstall"]

/-- One observable call into the OS service facility made by
`HandleControl` (ServiceManager file): the blocking run entry point or the
control primitive for a named action. -/
inductive FacilityCall where
  | run
  | control (action : String)
deriving Repr, DecidableEq

/-- Failure conditions of `(sm *ServiceManager) HandleControl(action)`,
one per `fmt.Errorf` site. `unknownAction` carries the valid-action list
its message quotes ("valid actions: run, %q" with `service.ControlAction`);
`controlFailed` and `runFailed` wrap a facility-reported message. -/
inductive ControlErr where
  | serviceNotInitialized
  | emptyAction
  | runFailed (msg : String)
  | controlFailed (action : String) (msg : String) (validActions : List String)
  | unknownAction (action : String) (validActions : List String)
deriving Repr, DecidableEq

/-- Whether a `HandleControl` result is the unknown-action condition. -/
def isUnknownActionErr : Except ControlErr Unit → Bool
  | .error (.unknownAction _ _) => true
  | _ => false

/-- The recognized control actions of `HandleControl`: the explicit cases
of its switch statement. -/
def recognizedActions : List String :=
  ["run", "install", "uninstall", "start", "stop", "restart"]

/-- Embedding of `(sm *ServiceManager) HandleControl(action)` from the
ServiceManager file. The OS service facility's behaviour is a parameter:
`runRes`/`controlRes` give the error message the facility reports for
`Run`/`Control` (`none` = success). `serviceInit` models whether
`sm.service` is non-nil. The second component is the trace of facility
calls. -/
def HandleControl (serviceInit : Bool) (runRes : Option String)
    (controlRes : String → Option String) (action : String) :
    Except ControlErr Unit × List FacilityCall :=
  if ¬serviceInit then (.error .serviceNotInitialized, [])
  else if action = "" then (.error .emptyAction, [])
  else if action = "run" then
    (match runRes with
      | some msg => .error (.runFailed msg)
      | none => .ok (), [.run])
  else if action = "install" ∨ action = "uninstall" ∨ action = "start" ∨
      action = "stop" ∨ action = "restart" then
    (match controlRes action with
      | some msg => .error (.controlFailed action msg serviceControlActions)
      | none => .ok (), [.control action])
  else
    (.error (.unknownAction action ("run" :: serviceControlActions)), [])

/-! ## Helper lemmas shared by the claim theorems -/

theorem getStringValue_name (cm : ConfigMerger) :
    cm.getStringValue "name" =
      match cm.optionsConfig.bind (fun o => if o.Name ≠ "" then some o.Name else none) with
      | some v => v
      | none =>
        match cm.fileConfig.bind (fun f => if f.Name ≠ "" then some f.Name else none) with
        | some v => v
        | none =>
          match cm.defaultConfig with
          | some d => d.Name
          | none => "" := by
  unfold ConfigMerger.getStringValue optionsStringStage fileStringStage defaultStringStage
  cases cm.optionsConfig <;> cases cm.fileConfig <;> cases cm.defaultConfig <;> simp

theorem getStringValue_displayName (cm : ConfigMerger) :
    cm.getStringValue "displayName" =
      match cm.optionsConfig.bind (fun o => if o.DisplayName ≠ "" then some o.DisplayName else none) with
      | some v => v
      | none =>
        match cm.fileConfig.bind (fun f => if f.DisplayName ≠ "" then some f.DisplayName else none) with
        | some v => v
        | none =>
          match cm.defaultConfig with
          | some d => d.DisplayName
          | none => "" := by
  unfold ConfigMerger.getStringValue optionsStringStage fileStringStage defaultStringStage
  cases cm.optionsConfig <;> cases cm.fileConfig <;> cases cm.defaultConfig <;> simp

theorem getStringValue_description (cm : ConfigMerger) :
    cm.getStringValue "description" =
      match cm.optionsConfig.bind (fun o => if o.Description ≠ "" then some o.Description else none) with
      | some v => v
      | none =>
        match cm.fileConfig.bind (fun f => if f.Description ≠ "" then some f.Description else none) with
        | some v => v
        | none =>
          match cm.defaultConfig with
          | some d => d.Description
          | none => "" := by
  unfold ConfigMerger.getStringValue optionsStringStage fileStringStage defaultStringStage
  cases cm.optionsConfig <;> cases cm.fileConfig <;> cases cm.defaultConfig <;> simp

theorem getStringValue_configPath (cm : ConfigMerger) :
    cm.getStringValue "configPath" =
      match cm.optionsConfig.bind (fun o => if o.ConfigPath ≠ "" then some o.ConfigPath else none) with
      | some v => v
      | none => "" := by
  unfold ConfigMerger.getStringValue optionsStringStage fileStringStage defaultStringStage
  cases cm.optionsConfig <;> cases cm.fileConfig <;> cases cm.defaultConfig <;> simp

theorem getStringValue_serviceFlag (cm : ConfigMerger) :
    cm.getStringValue "serviceFlag" =
      match cm.optionsConfig.bind (fun o => if o.ServiceFlag ≠ "" then some o.ServiceFlag else none) with
      | some v => v
      | none => "" := by
  unfold ConfigMerger.getStringValue optionsStringStage fileStringStage defaultStringStage
  cases cm.optionsConfig <;> cases cm.fileConfig <;> cases cm.defaultConfig <;> simp

theorem getIntValue_concurrency (cm : ConfigMerger) :
    cm.getIntValue "concurrency" =
      match cm.optionsConfig.bind (fun o => if o.Concurrency > 0 then some o.Concurrency else none) with
      | some v => v
      | none =>
        match cm.fileConfig.bind (fun f => if f.Concurrency > 0 then some f.Concurrency else none) with
        | some v => v
        | none =>
          match cm.defaultConfig with
          | some d => d.Concurrency
          | none => 0 := by
  unfold ConfigMerger.getIntValue
  cases cm.optionsConfig <;> cases cm.fileConfig <;> cases cm.defaultConfig <;> simp

theorem Merge_some_defaults (cm : ConfigMerger) (d : workerConfig)
    (hd : cm.defaultConfig = some d) :
    cm.Merge = .ok
      { Name := cm.getStringValue "name"
        DisplayName := cm.getStringValue "displayName"
        Description := cm.getStringValue "description"
        Concurrency := cm.getIntValue "concurrency"
        ConfigPath := cm.getStringValue "configPath"
        ServiceFlag := cm.getStringValue "serviceFlag"
        Logger := cm.getLoggerValue
        Config :=
          match cm.fileConfig with
          | some fc => some fc
          | none => cm.defaultConfig } := by
  unfold ConfigMerger.Merge
  rw [hd]

/-! ## Claim theorems -/

/-- Claim C3: merging with a nil Defaults source fails with the
MissingDefaults condition and yields no merged configuration, regardless
of the FileConfig and Options inputs. -/
theorem merge_nil_defaults_missingDefaults (fc? : Option workerConfig)
    (o? : Option WorkerdOptions) :
    (ConfigMerger.mk none fc? o?).Merge = .error .MissingDefaults := by
  rfl

/-- Claim C1: whenever the Options source sets a field (non-empty string,
or strictly positive concurrency), the merged value of that field equals
the Options value, for arbitrary FileConfig and Defaults inputs. -/
theorem merge_options_precedence (d : workerConfig) (fc? : Option workerConfig)
    (o : WorkerdOptions) (m : MergedConfig)
    (hm : (ConfigMerger.mk (some d) fc? (some o)).Merge = .ok m) :
    (o.Name ≠ "" → m.Name = o.Name) ∧
    (o.DisplayName ≠ "" → m.DisplayName = o.DisplayName) ∧
    (o.Description ≠ "" → m.Description = o.Description) ∧
    (o.ConfigPath ≠ "" → m.ConfigPath = o.ConfigPath) ∧
    (o.ServiceFlag ≠ "" → m.ServiceFlag = o.ServiceFlag) ∧
    (0 < o.Concurrency → m.Concurrency = o.Concurrency) := by
  rw [Merge_some_defaults _ d rfl] at hm
  injection hm with hm
  subst hm
  refine ⟨fun h => ?_, fun h => ?_, fun h => ?_, fun h => ?_, fun h => ?_, fun h => ?_⟩
  · rw [getStringValue_name]; simp [h]
  · rw [getStringValue_displayName]; simp [h]
  · rw [getStringValue_description]; simp [h]
  · rw [getStringValue_configPath]; simp [h]
  · rw [getStringValue_serviceFlag]; simp [h]
  · rw [getIntValue_concurrency]; simp [h]

/-- A concrete Defaults source used by the witnesses. -/
def exDefaults : workerConfig :=
  { AsynqConfig := none, LogLevel := 0, Name := "dname", DisplayName := "ddisp",
    Description := "ddesc", Concurrency := 3 }

/-- A concrete FileConfig source used by the witnesses. -/
def exFile : workerConfig :=
  { AsynqConfig := none, LogLevel := 0, Name := "fname", DisplayName := "fdisp",
    Description := "fdesc", Concurrency := 7 }

/-- A concrete Options source, setting every field, used by the
witnesses. -/
def exOptions : WorkerdOptions :=
  { Name := "oname", DisplayName := "odisp", Description := "odesc",
    Concurrency := 42, Logger := none, ConfigPath := "opath", ServiceFlag := "run" }

/-- The merged result of `exDefaults`, `exFile`, `exOptions`. -/
def exMergedAll : MergedConfig :=
  { Name := "oname", DisplayName := "odisp", Description := "odesc",
    Concurrency := 42, ConfigPath := "opath", ServiceFlag := "run",
    Logger := none, Config := some exFile }

/-- Witness for C1 at a concrete input: Options sets every field and each
merged field equals the Options value. -/
theorem merge_options_precedence_witness :
    (ConfigMerger.mk (some exDefaults) (some exFile) (some exOptions)).Merge =
        .ok exMergedAll ∧
      exMergedAll.Name = "oname" ∧ exMergedAll.DisplayName = "odisp" ∧
      exMergedAll.Description = "odesc" ∧ exMergedAll.ConfigPath = "opath" ∧
      exMergedAll.ServiceFlag = "run" ∧ exMergedAll.Concurrency = 42 :=
  have h := merge_options_precedence exDefaults (some exFile) exOptions exMergedAll rfl
  ⟨rfl, h.1 (by decide), h.2.1 (by decide), h.2.2.1 (by decide),
    h.2.2.2.1 (by decide), h.2.2.2.2.1 (by decide), h.2.2.2.2.2 (by decide)⟩

/-- Claim C4: a field the Options source leaves unset (empty string /
non-positive concurrency, or no Options record at all) resolves to the
FileConfig value when FileConfig sets it, and to the Defaults value when
FileConfig also leaves it unset. The configPath and serviceFlag fields do
not exist in FileConfig or Defaults, so with Options unset they resolve to
the zero value "". -/
theorem merge_fallthrough (d : workerConfig) (fc? : Option workerConfig)
    (o? : Option WorkerdOptions) (m : MergedConfig)
    (hm : (ConfigMerger.mk (some d) fc? o?).Merge = .ok m) :
    ((∀ o, o? = some o → o.Name = "") →
      (∀ f, fc? = some f → f.Name ≠ "" → m.Name = f.Name) ∧
      ((∀ f, fc? = some f → f.Name = "") → m.Name = d.Name)) ∧
    ((∀ o, o? = some o → o.DisplayName = "") →
      (∀ f, fc? = some f → f.DisplayName ≠ "" → m.DisplayName = f.DisplayName) ∧
      ((∀ f, fc? = some f → f.DisplayName = "") → m.DisplayName = d.DisplayName)) ∧
    ((∀ o, o? = some o → o.Description = "") →
      (∀ f, fc? = some f → f.Description ≠ "" → m.Description = f.Description) ∧
      ((∀ f, fc? = some f → f.Description = "") → m.Description = d.Description)) ∧
    ((∀ o, o? = some o → o.Concurrency ≤ 0) →
      (∀ f, fc? = some f → 0 < f.Concurrency → m.Concurrency = f.Concurrency) ∧
      ((∀ f, fc? = some f → f.Concurrency ≤ 0) → m.Concurrency = d.Concurrency)) ∧
    ((∀ o, o? = some o → o.ConfigPath = "") → m.ConfigPath = "") ∧
    ((∀ o, o? = some o → o.ServiceFlag = "") → m.ServiceFlag = "") := by
  rw [Merge_some_defaults _ d rfl] at hm
  injection hm with hm
  subst hm
  refine ⟨fun hu => ⟨fun f hf hfn => ?_, fun hfu => ?_⟩,
    fun hu => ⟨fun f hf hfn => ?_, fun hfu => ?_⟩,
    fun hu => ⟨fun f hf hfn => ?_, fun hfu => ?_⟩,
    fun hu => ⟨fun f hf hfn => ?_, fun hfu => ?_⟩,
    fun hu => ?_, fun hu => ?_⟩
  · rw [getStringValue_name]
    cases o? with
    | none => simp [hf, hfn]
    | some o => simp [hu o rfl, hf, hfn]
  · rw [getStringValue_name]
    cases o? with
    | none =>
      cases fc? with
      | none => simp
      | some f => simp [hfu f rfl]
    | some o =>
      cases fc? with
      | none => simp [hu o rfl]
      | some f => simp [hu o rfl, hfu f rfl]
  · rw [getStringValue_displayName]
    cases o? with
    | none => simp [hf, hfn]
    | some o => simp [hu o rfl, hf, hfn]
  · rw [getStringValue_displayName]
    cases o? with
    | none =>
      cases fc? with
      | none => simp
      | some f => simp [hfu f rfl]
    | some o =>
      cases fc? with
      | none => simp [hu o rfl]
      | some f => simp [hu o rfl, hfu f rfl]
  · rw [getStringValue_description]
    cases o? with
    | none => simp [hf, hfn]
    | some o => simp [hu o rfl, hf, hfn]
  · rw [getStringValue_description]
    cases o? with
    | none =>
      cases fc? with
      | none => simp
      | some f => simp [hfu f rfl]
    | some o =>
      cases fc? with
      | none => simp [hu o rfl]
      | some f => simp [hu o rfl, hfu f rfl]
  · rw [getIntValue_concurrency]
    cases o? with
    | none => simp [hf, hfn]
    | some o => simp [Int.not_lt.mpr (hu o rfl), hf, hfn]
  · rw [getIntValue_concurrency]
    cases o? with
    | none =>
      cases fc? with
      | none => simp
      | some f => simp [Int.not_lt.mpr (hfu f rfl)]
    | some o =>
      cases fc? with
      | none => simp [Int.not_lt.mpr (hu o rfl)]
      | some f => simp [Int.not_lt.mpr (hu o rfl), Int.not_lt.mpr (hfu f rfl)]
  · rw [getStringValue_configPath]
    cases o? with
    | none => simp
    | some o => simp [hu o rfl]
  · rw [getStringValue_serviceFlag]
    cases o? with
    | none => simp
    | some o => simp [hu o rfl]

/-- The empty Options record (Options in its zero value, "Options()"
in the spec scenarios). -/
def exEmptyOptions : WorkerdOptions :=
  { Name := "", DisplayName := "", Description := "", Concurrency := 0,
    Logger := none, ConfigPath := "", ServiceFlag := "" }

/-- The Defaults source of the spec's fall-through scenario:
name "workerd", concurrency 10. -/
def exScenarioDefaults : workerConfig :=
  { AsynqConfig := none, LogLevel := 0, Name := "workerd", DisplayName := "",
    Description := "", Concurrency := 10 }

/-- The FileConfig source of the spec's fall-through scenario: only
concurrency is set, to 15. -/
def exScenarioFile : workerConfig :=
  { AsynqConfig := none, LogLevel := 0, Name := "", DisplayName := "",
    Description := "", Concurrency := 15 }

/-- The merged result of the spec's fall-through scenario. -/
def exScenarioMerged : MergedConfig :=
  { Name := "workerd", DisplayName := "", Description := "",
    Concurrency := 15, ConfigPath := "", ServiceFlag := "",
    Logger := none, Config := some exScenarioFile }

/-- Witness for C4, the spec scenario: Defaults(name "workerd",
concurrency 10) + FileConfig(concurrency 15) + empty Options resolve to
concurrency 15, and the name falls through to Defaults' "workerd". -/
theorem merge_fallthrough_witness :
    (ConfigMerger.mk (some exScenarioDefaults) (some exScenarioFile)
        (some exEmptyOptions)).Merge = .ok exScenarioMerged ∧
      exScenarioMerged.Concurrency = 15 ∧ exScenarioMerged.Name = "workerd" :=
  have h := merge_fallthrough exScenarioDefaults (some exScenarioFile)
    (some exEmptyOptions) exScenarioMerged rfl
  ⟨rfl,
    (h.2.2.2.1 (by intro o ho; cases ho; decide)).1 exScenarioFile rfl (by decide),
    (h.1 (by intro o ho; cases ho; rfl)).2 (by intro f hf; cases hf; rfl)⟩

/-- A Defaults source whose every field is the zero value: empty name,
zero concurrency, nil connection config. -/
def exZeroDefaults : workerConfig :=
  { AsynqConfig := none, LogLevel := 0, Name := "", DisplayName := "",
    Description := "", Concurrency := 0 }

/-- The merged result of `exZeroDefaults` alone: empty name, zero
concurrency, nil connection config — returned as success. -/
def exMergedZero : MergedConfig :=
  { Name := "", DisplayName := "", Description := "", Concurrency := 0,
    ConfigPath := "", ServiceFlag := "", Logger := none,
    Config := some exZeroDefaults }

/-- Counterexample to C2: with the all-zero Defaults source and no other
inputs, Merge succeeds and the merged result has an empty name, zero
concurrency, and a nil (hence invalid) connection config — no error is
returned. -/
theorem merge_invariant_counterexample :
    (ConfigMerger.mk (some exZeroDefaults) none none).Merge = .ok exMergedZero ∧
      exMergedZero.Name = "" ∧ exMergedZero.Concurrency = 0 ∧
      exMergedZero.Config = some exZeroDefaults ∧
      GetRedisClientOpt exZeroDefaults.AsynqConfig = .error .nilAsynqConfig :=
  ⟨rfl, rfl, rfl, rfl, rfl⟩

/-- Claim C2 as amended: Merge enforces no invariant at all. Whenever the
Defaults source is non-nil it returns a merged result and never an error,
even when the inputs would make the name empty, the concurrency zero, or
the embedded connection config invalid. -/
theorem merge_never_fails_with_defaults (cm : ConfigMerger) (d : workerConfig)
    (hd : cm.defaultConfig = some d) :
    ∀ e, cm.Merge ≠ .error e := by
  intro e h
  rw [Merge_some_defaults cm d hd] at h
  exact Except.noConfusion h

/-- Witness for the amended C2: the all-zero defaults merge does not
return the MissingDefaults error (it succeeds). -/
theorem merge_never_fails_with_defaults_witness :
    (ConfigMerger.mk (some exZeroDefaults) none none).Merge ≠
      .error .MissingDefaults :=
  merge_never_fails_with_defaults _ exZeroDefaults rfl .MissingDefaults

/-- Claim C10: the embedded connection configuration of the merged result
is taken wholesale from a single source: the FileConfig object when one is
supplied, the Defaults object otherwise. The right-hand side mentions
neither the Options source nor any validity condition on the FileConfig
object, so Options never influences it and no field-level merging or
validation applies to the connection block. -/
theorem merge_config_wholesale (d : workerConfig) (fc? : Option workerConfig)
    (o? : Option WorkerdOptions) (m : MergedConfig)
    (hm : (ConfigMerger.mk (some d) fc? o?).Merge = .ok m) :
    m.Config = some (fc?.getD d) := by
  rw [Merge_some_defaults _ d rfl] at hm
  injection hm with hm
  subst hm
  cases fc? <;> rfl

/-- Witness for C10: with a FileConfig whose connection block is nil
(invalid), the merged Config is still exactly that FileConfig object. -/
theorem merge_config_wholesale_witness :
    (ConfigMerger.mk (some exDefaults) (some exFile) (some exOptions)).Merge =
        .ok exMergedAll ∧
      exMergedAll.Config = some exFile ∧ exFile.AsynqConfig = none :=
  ⟨rfl, merge_config_wholesale exDefaults (some exFile) (some exOptions) exMergedAll rfl, rfl⟩

/-- Claim C5: with exactly one field violated, validate returns the error
naming that field; with no field violated it passes. Each conjunct fixes
one violated field and requires every other rule satisfied. -/
theorem validate_field_errors (rc : RedisClient) :
    (rc.Addr = "" ∧ rc.Network ≠ "" ∧ 0 ≤ rc.DB ∧ 0 < rc.PoolSize ∧
        0 < rc.DialTimeout ∧ 0 < rc.ReadTimeout ∧ 0 < rc.WriteTimeout →
      (AsynqConfig.mk rc).validate = .error .emptyAddress ∧
        ValidateErr.field .emptyAddress = "address") ∧
    (rc.Network = "" ∧ rc.Addr ≠ "" ∧ 0 ≤ rc.DB ∧ 0 < rc.PoolSize ∧
        0 < rc.DialTimeout ∧ 0 < rc.ReadTimeout ∧ 0 < rc.WriteTimeout →
      (AsynqConfig.mk rc).validate = .error .emptyNetwork ∧
        ValidateErr.field .emptyNetwork = "network") ∧
    (rc.DB < 0 ∧ rc.Addr ≠ "" ∧ rc.Network ≠ "" ∧ 0 < rc.PoolSize ∧
        0 < rc.DialTimeout ∧ 0 < rc.ReadTimeout ∧ 0 < rc.WriteTimeout →
      (AsynqConfig.mk rc).validate = .error (.negativeDB rc.DB) ∧
        ValidateErr.field (.negativeDB rc.DB) = "db") ∧
    (rc.PoolSize ≤ 0 ∧ rc.Addr ≠ "" ∧ rc.Network ≠ "" ∧ 0 ≤ rc.DB ∧
        0 < rc.DialTimeout ∧ 0 < rc.ReadTimeout ∧ 0 < rc.WriteTimeout →
      (AsynqConfig.mk rc).validate = .error (.nonPositivePoolSize rc.PoolSize) ∧
        ValidateErr.field (.nonPositivePoolSize rc.PoolSize) = "poolSize") ∧
    (rc.DialTimeout ≤ 0 ∧ rc.Addr ≠ "" ∧ rc.Network ≠ "" ∧ 0 ≤ rc.DB ∧
        0 < rc.PoolSize ∧ 0 < rc.ReadTimeout ∧ 0 < rc.WriteTimeout →
      (AsynqConfig.mk rc).validate = .error (.nonPositiveDialTimeout rc.DialTimeout) ∧
        ValidateErr.field (.nonPositiveDialTimeout rc.DialTimeout) = "dialTimeout") ∧
    (rc.ReadTimeout ≤ 0 ∧ rc.Addr ≠ "" ∧ rc.Network ≠ "" ∧ 0 ≤ rc.DB ∧
        0 < rc.PoolSize ∧ 0 < rc.DialTimeout ∧ 0 < rc.WriteTimeout →
      (AsynqConfig.mk rc).validate = .error (.nonPositiveReadTimeout rc.ReadTimeout) ∧
        ValidateErr.field (.nonPositiveReadTimeout rc.ReadTimeout) = "readTimeout") ∧
    (rc.WriteTimeout ≤ 0 ∧ rc.Addr ≠ "" ∧ rc.Network ≠ "" ∧ 0 ≤ rc.DB ∧
        0 < rc.PoolSize ∧ 0 < rc.DialTimeout ∧ 0 < rc.ReadTimeout →
      (AsynqConfig.mk rc).validate = .error (.nonPositiveWriteTimeout rc.WriteTimeout) ∧
        ValidateErr.field (.nonPositiveWriteTimeout rc.WriteTimeout) = "writeTimeout") ∧
    (rc.Addr ≠ "" ∧ rc.Network ≠ "" ∧ 0 ≤ rc.DB ∧ 0 < rc.PoolSize ∧
        0 < rc.DialTimeout ∧ 0 < rc.ReadTimeout ∧ 0 < rc.WriteTimeout →
      (AsynqConfig.mk rc).validate = .ok ()) := by
  refine ⟨fun ⟨h1, h2, h3, h4, h5, h6, h7⟩ => ⟨?_, rfl⟩,
    fun ⟨h1, h2, h3, h4, h5, h6, h7⟩ => ⟨?_, rfl⟩,
    fun ⟨h1, h2, h3, h4, h5, h6, h7⟩ => ⟨?_, rfl⟩,
    fun ⟨h1, h2, h3, h4, h5, h6, h7⟩ => ⟨?_, rfl⟩,
    fun ⟨h1, h2, h3, h4, h5, h6, h7⟩ => ⟨?_, rfl⟩,
    fun ⟨h1, h2, h3, h4, h5, h6, h7⟩ => ⟨?_, rfl⟩,
    fun ⟨h1, h2, h3, h4, h5, h6, h7⟩ => ⟨?_, rfl⟩,
    fun ⟨h1, h2, h3, h4, h5, h6, h7⟩ => ?_⟩
  · simp [AsynqConfig.validate, h1]
  · simp [AsynqConfig.validate, h1, h2]
  · simp [AsynqConfig.validate, h1, h2, h3]
  · simp [AsynqConfig.validate, h1, h2, h3, Int.not_lt.mpr h4]
  · simp [AsynqConfig.validate, h1, h2, h3, Int.not_lt.mpr h4, Int.not_le.mpr h5]
  · simp [AsynqConfig.validate, h1, h2, h3, Int.not_lt.mpr h4, Int.not_le.mpr h5,
      Int.not_le.mpr h6]
  · simp [AsynqConfig.validate, h1, h2, h3, Int.not_lt.mpr h4, Int.not_le.mpr h5,
      Int.not_le.mpr h6, Int.not_le.mpr h7]
  · simp [AsynqConfig.validate, h1, h2, Int.not_lt.mpr h3, Int.not_le.mpr h4,
      Int.not_le.mpr h5, Int.not_le.mpr h6, Int.not_le.mpr h7]

/-- Witness for C5: the spec's poolSize scenario — an otherwise valid
config with poolSize 0 is rejected naming "poolSize", and the same config
with poolSize 10 passes. -/
theorem validate_field_errors_witness :
    (AsynqConfig.mk
        { Network := "tcp", Addr := "127.0.0.1:6379", Username := "", Password := "",
          DB := 0, DialTimeout := 5, ReadTimeout := 3, WriteTimeout := 3,
          PoolSize := 0 }).validate = .error (.nonPositivePoolSize 0) ∧
      ValidateErr.field (.nonPositivePoolSize 0) = "poolSize" ∧
      (AsynqConfig.mk
        { Network := "tcp", Addr := "127.0.0.1:6379", Username := "", Password := "",
          DB := 0, DialTimeout := 5, ReadTimeout := 3, WriteTimeout := 3,
          PoolSize := 10 }).validate = .ok () :=
  have h1 := (validate_field_errors
    { Network := "tcp", Addr := "127.0.0.1:6379", Username := "", Password := "",
      DB := 0, DialTimeout := 5, ReadTimeout := 3, WriteTimeout := 3,
      PoolSize := 0 }).2.2.2.1 (by refine ⟨le_refl 0, ?_, ?_, ?_, ?_, ?_, ?_⟩ <;> decide)
  have h2 := (validate_field_errors
    { Network := "tcp", Addr := "127.0.0.1:6379", Username := "", Password := "",
      DB := 0, DialTimeout := 5, ReadTimeout := 3, WriteTimeout := 3,
      PoolSize := 10 }).2.2.2.2.2.2.2 (by refine ⟨?_, ?_, ?_, ?_, ?_, ?_, ?_⟩ <;> decide)
  ⟨h1.1, h1.2, h2⟩

/-- A connection config whose transport kind is non-empty but neither of
the two recognized variants tcp and unix, with every other field valid. -/
def exBogusNetwork : RedisClient :=
  { Network := "bogus", Addr := "127.0.0.1:6379", Username := "", Password := "",
    DB := 0, DialTimeout := 5, ReadTimeout := 3, WriteTimeout := 3, PoolSize := 10 }

/-- Counterexample to C9: validate accepts a transport kind that is
non-empty but not one of the recognized variants — it checks the field
only for emptiness, so "bogus" passes validation. -/
theorem validate_network_variant_counterexample :
    exBogusNetwork.Network ≠ "" ∧ exBogusNetwork.Network ≠ "tcp" ∧
      exBogusNetwork.Network ≠ "unix" ∧
      (AsynqConfig.mk exBogusNetwork).validate = .ok () :=
  ⟨by decide, by decide, by decide, rfl⟩

/-- Claim C9 as amended: the only transport-kind rule validate enforces is
non-emptiness. An empty transport kind (with a non-empty address) is
rejected naming the network field; a non-empty transport kind is never
rejected for the network field, recognized variant or not. -/
theorem validate_network_empty_only (rc : RedisClient) :
    (rc.Addr ≠ "" → rc.Network = "" →
      (AsynqConfig.mk rc).validate = .error .emptyNetwork ∧
        ValidateErr.field .emptyNetwork = "network") ∧
    (rc.Network ≠ "" → (AsynqConfig.mk rc).validate ≠ .error .emptyNetwork) := by
  constructor
  · intro ha hn
    exact ⟨by simp [AsynqConfig.validate, ha, hn], rfl⟩
  · intro hn h
    unfold AsynqConfig.validate at h
    split_ifs at h <;> simp_all

/-- Witness for the amended C9: an empty transport kind is rejected naming
the network field, and the "bogus" transport kind never produces the
network error. -/
theorem validate_network_empty_only_witness :
    (AsynqConfig.mk
        { Network := "", Addr := "127.0.0.1:6379", Username := "", Password := "",
          DB := 0, DialTimeout := 5, ReadTimeout := 3, WriteTimeout := 3,
          PoolSize := 10 }).validate = .error .emptyNetwork ∧
      (AsynqConfig.mk exBogusNetwork).validate ≠ .error .emptyNetwork :=
  ⟨((validate_network_empty_only
      { Network := "", Addr := "127.0.0.1:6379", Username := "", Password := "",
        DB := 0, DialTimeout := 5, ReadTimeout := 3, WriteTimeout := 3,
        PoolSize := 10 }).1 (by decide) rfl).1,
    (validate_network_empty_only exBogusNetwork).2 (by decide)⟩

/-- A concrete server builder over the example defaults. -/
def exBuilder : ServerBuilder := { config := exDefaults }

/-- A concrete server builder whose resolved concurrency is zero. -/
def exZeroBuilder : ServerBuilder := { config := exZeroDefaults }

/-- Claim C6: for every configuration and every concurrency value ≤ 0,
BuildServer returns the InvalidConcurrency condition and its trace of
calls into the external task-queue runtime is empty — the runtime's server
construction is never invoked. -/
theorem buildServer_rejects_nonpositive (sb : ServerBuilder) (c : Int) (hc : c ≤ 0) :
    sb.BuildServer c = (.error (.InvalidConcurrency c), []) := by
  unfold ServerBuilder.BuildServer
  rw [if_pos hc]

/-- Witness for C6: the spec's two inputs 0 and -5 both produce
InvalidConcurrency and an empty runtime-call trace. -/
theorem buildServer_rejects_nonpositive_witness :
    exBuilder.BuildServer 0 = (.error (.InvalidConcurrency 0), []) ∧
      exBuilder.BuildServer (-5) = (.error (.InvalidConcurrency (-5)), []) :=
  ⟨buildServer_rejects_nonpositive exBuilder 0 (by decide),
    buildServer_rejects_nonpositive exBuilder (-5) (by decide)⟩

/-- Claim C8: BuildServerWithDefaults calls BuildServer with exactly
`defaultConcurrency`, which equals the resolved concurrency when that is
positive and the fallback 10 otherwise; it is always positive, so the
result is never the InvalidConcurrency condition. -/
theorem buildServerWithDefaults_fallback (sb : ServerBuilder) :
    sb.BuildServerWithDefaults = sb.BuildServer sb.defaultConcurrency ∧
      0 < sb.defaultConcurrency ∧
      (0 < sb.config.Concurrency → sb.defaultConcurrency = sb.config.Concurrency) ∧
      (sb.config.Concurrency ≤ 0 → sb.defaultConcurrency = 10) ∧
      ∀ g, sb.BuildServerWithDefaults.1 ≠ .error (.InvalidConcurrency g) := by
  have hpos : 0 < sb.defaultConcurrency := by
    unfold ServerBuilder.defaultConcurrency
    split_ifs with h
    · exact h
    · decide
  refine ⟨rfl, hpos, fun h => ?_, fun h => ?_, fun g hg => ?_⟩
  · unfold ServerBuilder.defaultConcurrency
    rw [if_pos h]
  · unfold ServerBuilder.defaultConcurrency
    rw [if_neg (Int.not_lt.mpr h)]
  · unfold ServerBuilder.BuildServerWithDefaults ServerBuilder.BuildServer at hg
    rw [if_neg (Int.not_le.mpr hpos)] at hg
    cases hr : GetRedisClientOpt sb.config.AsynqConfig <;> simp [hr] at hg

/-- Witness for C8: with resolved concurrency 3 the passed value is 3;
with resolved concurrency 0 the passed value is the fallback 10; neither
result is an InvalidConcurrency error. -/
theorem buildServerWithDefaults_fallback_witness :
    exBuilder.defaultConcurrency = 3 ∧ exZeroBuilder.defaultConcurrency = 10 ∧
      exZeroBuilder.BuildServerWithDefaults =
        exZeroBuilder.BuildServer exZeroBuilder.defaultConcurrency ∧
      exZeroBuilder.BuildServerWithDefaults.1 ≠ .error (.InvalidConcurrency 0) :=
  ⟨(buildServerWithDefaults_fallback exBuilder).2.2.1 (by decide),
    (buildServerWithDefaults_fallback exZeroBuilder).2.2.2.1 (by decide),
    (buildServerWithDefaults_fallback exZeroBuilder).1,
    (buildServerWithDefaults_fallback exZeroBuilder).2.2.2.2 0⟩

/-- Counterexample to C7: the empty string is a control action outside the
recognized set, yet HandleControl rejects it with the distinct
empty-action condition, not the UnknownAction condition listing the valid
actions (the facility-call trace is still empty). -/
theorem handleControl_empty_action_counterexample :
    ("" ∈ recognizedActions) = False ∧
      HandleControl true none (fun _ => none) "" = (.error .emptyAction, []) ∧
      isUnknownActionErr (HandleControl true none (fun _ => none) "").1 = false :=
  ⟨by decide, rfl, rfl⟩

/-- Claim C7 as amended: on an initialized service manager, every
non-empty action outside the recognized set is rejected with the
UnknownAction condition listing the valid actions (run plus the facility's
control-action list), with an empty facility-call trace — no Run and no
Control call, hence no state transition; the empty action, also outside
the set, is instead rejected with a distinct empty-action condition,
likewise with an empty trace. This holds for every facility behaviour. -/
theorem handleControl_rejects_unrecognized (runRes : Option String)
    (controlRes : String → Option String) (action : String)
    (hna : action ∉ recognizedActions) :
    (action ≠ "" → HandleControl true runRes controlRes action =
      (.error (.unknownAction action ("run" :: serviceControlActions)), [])) ∧
    (action = "" → HandleControl true runRes controlRes action =
      (.error .emptyAction, [])) := by
  simp only [recognizedActions, List.mem_cons, List.mem_singleton, not_or] at hna
  obtain ⟨h1, h2, h3, h4, h5, h6⟩ := hna
  constructor
  · intro hne
    simp [HandleControl, hne, h1, h2, h3, h4, h5, h6]
  · intro he
    simp [HandleControl, he]

/-- Witness for the amended C7: the action "bogus" yields the
UnknownAction condition listing the valid actions with an empty facility
trace, and the empty action yields the empty-action condition with an
empty trace. -/
theorem handleControl_rejects_unrecognized_witness :
    HandleControl true none (fun _ => none) "bogus" =
        (.error (.unknownAction "bogus"
          ["run", "start", "stop", "restart", "install", "uninstall"]), []) ∧
      HandleControl true none (fun _ => none) "" = (.error .emptyAction, []) :=
  ⟨(handleControl_rejects_unrecognized none (fun _ => none) "bogus"
      (by decide)).1 (by decide),
    (handleControl_rejects_unrecognized none (fun _ => none) ""
      (by decide)).2 rfl⟩

end Workerd
